import Mathlib

/-!
Verification of the NL2SQL BI demo (`src/nl2sql.py`).

The development shallowly embeds the pure core of `NL2SQLDemo`:
`generate_sql` (keyword-driven selection of SQL templates),
`_extract_ticker` (keyword-driven ticker selection), the window-function
semantics of the moving-average SQL template, and the chart-layout
selection performed by `visualize`.  Python strings become Lean `String`s,
Python's substring test `pat in s` becomes `hasSub s pat`, and Python's
`str.lower` becomes `pyLower` (the ASCII case mapping `Char.toLower`,
applied characterwise).
-/

/-- Python's `str.lower`: lowercase every character (ASCII case mapping). -/
def pyLower (s : String) : String := ⟨s.data.map Char.toLower⟩

/-- Python's substring test `pat in l` on lists of characters:
`subAux pat l` is `true` exactly when `pat` occurs contiguously in `l`. -/
def subAux (pat : List Char) : List Char → Bool
  | [] => pat.isEmpty
  | c :: cs => pat.isPrefixOf (c :: cs) || subAux pat cs

/-- Python's `pat in s` on strings (contiguous substring test). -/
def hasSub (s pat : String) : Bool := subAux pat.data s.data

/-- SQL template of the moving-average branch (`nl2sql.py` lines 29-36),
after Python's `.strip()`; the one interpolated parameter is the ticker. -/
def ma_sql (ticker : String) : String :=
  "SELECT date, close,\n                    AVG(close) OVER (ORDER BY date ROWS 6 PRECEDING) as ma_7,\n                    AVG(close) OVER (ORDER BY date ROWS 29 PRECEDING) as ma_30\n                FROM stock_prices \n                WHERE ticker = '" ++ ticker ++ "' \n                ORDER BY date"

/-- SQL template of the daily-returns branch (`nl2sql.py` lines 41-48),
after `.strip()`; it has no interpolated parameter. -/
def returns_sql : String :=
  "SELECT ticker, date, close,\n                    ROUND((close - LAG(close) OVER (PARTITION BY ticker ORDER BY date)) / \n                          LAG(close) OVER (PARTITION BY ticker ORDER BY date) * 100, 2) as return_pct\n                FROM stock_prices \n                ORDER BY date DESC \n                LIMIT 30"

/-- SQL template of the risk-metrics branch (`nl2sql.py` lines 53-67),
after `.strip()`; it has no interpolated parameter. -/
def risk_sql : String :=
  "WITH daily_returns AS (\n                    SELECT ticker, \n                        (close - LAG(close) OVER (PARTITION BY ticker ORDER BY date)) / \n                        LAG(close) OVER (PARTITION BY ticker ORDER BY date) as ret\n                    FROM stock_prices\n                )\n                SELECT ticker,\n                    ROUND(MIN(ret)*100, 2) as worst_day_pct,\n                    ROUND(AVG(CASE WHEN ret<0 THEN ret END)*100, 2) as avg_loss_pct,\n                    ROUND(COUNT(CASE WHEN ret<0 THEN 1 END)*100.0/COUNT(*), 1) as down_days_pct\n                FROM daily_returns \n                WHERE ret IS NOT NULL \n                GROUP BY ticker"

/-- SQL template of the volatility branch (`nl2sql.py` lines 72-78),
after `.strip()`; it has no interpolated parameter. -/
def volatility_sql : String :=
  "SELECT ticker, \n                    ROUND(AVG((high-low)/close*100), 2) as avg_volatility_pct\n                FROM stock_prices \n                GROUP BY ticker \n                ORDER BY avg_volatility_pct DESC"

/-- SQL template of the single-ticker average-price branch
(`nl2sql.py` line 85); the one interpolated parameter is the ticker. -/
def avg_ticker_sql (ticker : String) : String :=
  "SELECT AVG(close) as avg_price FROM stock_prices WHERE ticker = '" ++ ticker ++ "'"

/-- SQL template of the all-tickers average-price alternative
(`nl2sql.py` line 88); it is guarded by `if ticker:` in the source. -/
def avg_all_sql : String :=
  "SELECT ticker, AVG(close) as avg_price FROM stock_prices GROUP BY ticker"

/-- SQL of the recent-data branch (`nl2sql.py` line 93). -/
def latest_sql : String :=
  "SELECT * FROM stock_prices ORDER BY date DESC LIMIT 10"

/-- SQL of the default fallback (`nl2sql.py` line 96). -/
def default_sql : String :=
  "SELECT * FROM stock_prices LIMIT 5"

/-- The three hardcoded ticker symbols of `_extract_ticker`. -/
def tickers : List String := ["AAPL", "MSFT", "NVDA"]

/-- `NL2SQLDemo._extract_ticker` (`nl2sql.py` lines 98-107): lowercase the
query, test the six ticker keywords in order, default to `"AAPL"`. -/
def _extract_ticker (query : String) : String :=
  let q := pyLower query
  if hasSub q "apple" || hasSub q "aapl" then "AAPL"
  else if hasSub q "microsoft" || hasSub q "msft" then "MSFT"
  else if hasSub q "nvidia" || hasSub q "nvda" then "NVDA"
  else "AAPL"

/-- `NL2SQLDemo.generate_sql` (`nl2sql.py` lines 22-96): lowercase the
question, run the keyword branches in source order (each `return` becomes
the positive leg of an `if`), and produce the `(sql, explanation)` pair. -/
def generate_sql (natural_query : String) : String × String :=
  let q := pyLower natural_query
  if hasSub q "moving average" || hasSub q "trend" then
    let ticker := _extract_ticker q
    (ma_sql ticker, "7-day and 30-day moving averages for " ++ ticker)
  else if hasSub q "return" || hasSub q "daily change" then
    (returns_sql, "Daily returns for all stocks")
  else if hasSub q "risk" || hasSub q "drawdown" || hasSub q "worst" then
    (risk_sql, "Risk metrics: worst day, avg loss, down day frequency")
  else if hasSub q "volatile" || hasSub q "volatility" then
    (volatility_sql, "Average daily volatility by stock")
  else if hasSub q "average" || hasSub q "avg" then
    let ticker := _extract_ticker q
    if ticker ≠ "" then
      (avg_ticker_sql ticker, "Average closing price for " ++ ticker)
    else
      (avg_all_sql, "Average closing price for all stocks")
  else if hasSub q "latest" || hasSub q "recent" then
    (latest_sql, "Most recent 10 trading days")
  else
    (default_sql, "Sample data")

lemma extract_mem (s : String) : _extract_ticker s ∈ tickers := by
  unfold _extract_ticker tickers
  dsimp only
  split_ifs <;> simp

lemma extract_ne_empty (s : String) : _extract_ticker s ≠ "" := by
  unfold _extract_ticker
  dsimp only
  split_ifs <;> decide

lemma gen_cases (q : String) :
    ∃ t ∈ tickers,
      generate_sql q = (ma_sql t, "7-day and 30-day moving averages for " ++ t) ∨
      generate_sql q = (returns_sql, "Daily returns for all stocks") ∨
      generate_sql q = (risk_sql, "Risk metrics: worst day, avg loss, down day frequency") ∨
      generate_sql q = (volatility_sql, "Average daily volatility by stock") ∨
      generate_sql q = (avg_ticker_sql t, "Average closing price for " ++ t) ∨
      generate_sql q = (latest_sql, "Most recent 10 trading days") ∨
      generate_sql q = (default_sql, "Sample data") := by
  unfold generate_sql
  dsimp only
  split_ifs with h1 h2 h3 h4 h5 h6 h7
  · exact ⟨_, extract_mem _, Or.inl rfl⟩
  · exact ⟨"AAPL", by decide, Or.inr (Or.inl rfl)⟩
  · exact ⟨"AAPL", by decide, Or.inr (Or.inr (Or.inl rfl))⟩
  · exact ⟨"AAPL", by decide, Or.inr (Or.inr (Or.inr (Or.inl rfl)))⟩
  · exact ⟨_, extract_mem _, Or.inr (Or.inr (Or.inr (Or.inr (Or.inl rfl))))⟩
  · exact absurd (not_not.mp h6) (extract_ne_empty _)
  · exact ⟨"AAPL", by decide, Or.inr (Or.inr (Or.inr (Or.inr (Or.inr (Or.inl rfl)))))⟩
  · exact ⟨"AAPL", by decide, Or.inr (Or.inr (Or.inr (Or.inr (Or.inr (Or.inr rfl)))))⟩

/-- C1: for every input question, `generate_sql` returns a SQL string drawn
from a set of exactly seven hardcoded templates — one per keyword branch
plus the default.  Membership for every question, one attaining question
per template, and distinctness of the seven templates. -/
theorem c1_seven_templates :
    (∀ q : String, ∃ t ∈ tickers,
        (generate_sql q).1 ∈ [ma_sql t, returns_sql, risk_sql, volatility_sql,
          avg_ticker_sql t, latest_sql, default_sql]) ∧
    ((generate_sql "trend").1 = ma_sql "AAPL" ∧
     (generate_sql "return").1 = returns_sql ∧
     (generate_sql "risk").1 = risk_sql ∧
     (generate_sql "volatility").1 = volatility_sql ∧
     (generate_sql "avg").1 = avg_ticker_sql "AAPL" ∧
     (generate_sql "latest").1 = latest_sql ∧
     (generate_sql "sample").1 = default_sql) ∧
    [ma_sql "AAPL", returns_sql, risk_sql, volatility_sql,
      avg_ticker_sql "AAPL", latest_sql, default_sql].Nodup := by
  refine ⟨?_, ⟨rfl, rfl, rfl, rfl, rfl, rfl, rfl⟩, by decide⟩
  intro q
  obtain ⟨t, ht, h⟩ := gen_cases q
  exact ⟨t, ht, by rcases h with h | h | h | h | h | h | h <;> simp [h]⟩

/-- C3: for every input string, `_extract_ticker` returns one of exactly the
three hardcoded tickers AAPL, MSFT, NVDA and no other value; each of the
three is attained. -/
theorem c3_ticker_range :
    (∀ s : String, _extract_ticker s ∈ ["AAPL", "MSFT", "NVDA"]) ∧
    (_extract_ticker "apple" = "AAPL" ∧
     _extract_ticker "microsoft" = "MSFT" ∧
     _extract_ticker "nvidia" = "NVDA") := by
  refine ⟨fun s => ?_, rfl, rfl, rfl⟩
  simpa [tickers] using extract_mem s

/-- Every SQL string `generate_sql` can emit: each template instantiated
with at most one of the three ticker constants. -/
def sql_range : List String :=
  [ma_sql "AAPL", ma_sql "MSFT", ma_sql "NVDA",
   returns_sql, risk_sql, volatility_sql,
   avg_ticker_sql "AAPL", avg_ticker_sql "MSFT", avg_ticker_sql "NVDA",
   latest_sql, default_sql]

/-- C10: noninterference — the range of `generate_sql` over all questions is
the fixed finite set `sql_range`, so no substring of the user's question,
beyond its influence on branch and ticker selection, ever reaches the SQL. -/
theorem c10_fixed_sql_range : ∀ q : String, (generate_sql q).1 ∈ sql_range := by
  intro q
  obtain ⟨t, ht, h⟩ := gen_cases q
  simp only [tickers, List.mem_cons, List.not_mem_nil, or_false] at ht
  rcases ht with rfl | rfl | rfl <;>
    rcases h with h | h | h | h | h | h | h <;> simp [sql_range, h]

/-- The thirteen keyword substrings `generate_sql` tests, in source order. -/
def branch_keywords : List String :=
  ["moving average", "trend", "return", "daily change", "risk", "drawdown",
   "worst", "volatile", "volatility", "average", "avg", "latest", "recent"]

/-- C2: a question whose lowercased form contains none of the thirteen
recognized keywords falls through to the single default case and returns
exactly `SELECT * FROM stock_prices LIMIT 5` with explanation `Sample data`. -/
theorem c2_default_fallback (q : String)
    (h : ∀ p ∈ branch_keywords, hasSub (pyLower q) p = false) :
    generate_sql q = ("SELECT * FROM stock_prices LIMIT 5", "Sample data") := by
  have h1 := h "moving average" (by decide)
  have h2 := h "trend" (by decide)
  have h3 := h "return" (by decide)
  have h4 := h "daily change" (by decide)
  have h5 := h "risk" (by decide)
  have h6 := h "drawdown" (by decide)
  have h7 := h "worst" (by decide)
  have h8 := h "volatile" (by decide)
  have h9 := h "volatility" (by decide)
  have h10 := h "average" (by decide)
  have h11 := h "avg" (by decide)
  have h12 := h "latest" (by decide)
  have h13 := h "recent" (by decide)
  simp [generate_sql, h1, h2, h3, h4, h5, h6, h7, h8, h9, h10, h11, h12, h13, default_sql]

/-- Witness for C2 at the concrete question "hello world". -/
theorem c2_default_fallback_witness :
    (∀ p ∈ branch_keywords, hasSub (pyLower "hello world") p = false) ∧
    generate_sql "hello world" = ("SELECT * FROM stock_prices LIMIT 5", "Sample data") :=
  ⟨by decide, c2_default_fallback "hello world" (by decide)⟩

/-- C9: a query naming none of the six ticker keywords (apple, aapl,
microsoft, msft, nvidia, nvda) is silently given the ticker AAPL. -/
theorem c9_default_ticker (s : String)
    (h : ∀ p ∈ ["apple", "aapl", "microsoft", "msft", "nvidia", "nvda"],
        hasSub (pyLower s) p = false) :
    _extract_ticker s = "AAPL" := by
  have h1 := h "apple" (by decide)
  have h2 := h "aapl" (by decide)
  have h3 := h "microsoft" (by decide)
  have h4 := h "msft" (by decide)
  have h5 := h "nvidia" (by decide)
  have h6 := h "nvda" (by decide)
  simp [_extract_ticker, h1, h2, h3, h4, h5, h6]

/-- Witness for C9 at a ticker-parameterized question naming no ticker. -/
theorem c9_default_ticker_witness :
    (∀ p ∈ ["apple", "aapl", "microsoft", "msft", "nvidia", "nvda"],
        hasSub (pyLower "what is the average price") p = false) ∧
    _extract_ticker "what is the average price" = "AAPL" :=
  ⟨by decide, c9_default_ticker "what is the average price" (by decide)⟩

/-- C6: case-insensitivity as a two-run property — two questions equal
after lowercasing get the identical (SQL, explanation) pair. -/
theorem c6_lowercase_invariance (a b : String) (h : pyLower a = pyLower b) :
    generate_sql a = generate_sql b := by
  unfold generate_sql
  rw [h]

/-- Witness for C6 at two spellings of the same lowercased question. -/
theorem c6_lowercase_invariance_witness :
    pyLower "Show The TREND of Apple" = pyLower "show the trend of apple" ∧
    generate_sql "Show The TREND of Apple" = generate_sql "show the trend of apple" :=
  ⟨by decide, c6_lowercase_invariance _ _ (by decide)⟩

/-- C4: the substring checks run in a fixed sequence, first match wins — a
question containing both "trend" and "risk" gets the moving-average
template with its extracted ticker, never the risk template. -/
theorem c4_trend_beats_risk (q : String)
    (ht : hasSub (pyLower q) "trend" = true)
    (hr : hasSub (pyLower q) "risk" = true) :
    generate_sql q = (ma_sql (_extract_ticker (pyLower q)),
        "7-day and 30-day moving averages for " ++ _extract_ticker (pyLower q)) ∧
    (generate_sql q).1 ≠ risk_sql := by
  have hcond : (hasSub (pyLower q) "moving average" || hasSub (pyLower q) "trend") = true := by
    simp [ht]
  have hma : generate_sql q = (ma_sql (_extract_ticker (pyLower q)),
      "7-day and 30-day moving averages for " ++ _extract_ticker (pyLower q)) := by
    unfold generate_sql
    dsimp only
    rw [if_pos hcond]
  refine ⟨hma, ?_⟩
  rw [hma]
  have hmem := extract_mem (pyLower q)
  simp only [tickers, List.mem_cons, List.not_mem_nil, or_false] at hmem
  rcases hmem with h | h | h <;> rw [h] <;> decide

/-- Witness for C4 at the concrete question "trend and risk". -/
theorem c4_trend_beats_risk_witness :
    (hasSub (pyLower "trend and risk") "trend" = true ∧
     hasSub (pyLower "trend and risk") "risk" = true) ∧
    (generate_sql "trend and risk" = (ma_sql (_extract_ticker (pyLower "trend and risk")),
        "7-day and 30-day moving averages for " ++ _extract_ticker (pyLower "trend and risk")) ∧
     (generate_sql "trend and risk").1 ≠ risk_sql) :=
  ⟨⟨by decide, by decide⟩, c4_trend_beats_risk "trend and risk" (by decide) (by decide)⟩

set_option maxRecDepth 40000 in
/-- C5: every template has zero or one interpolated parameters — only
`ma_sql` and `avg_ticker_sql` embed the extracted ticker; every other
branch emits one of five fixed strings, and no ticker symbol occurs in
those fixed strings. -/
theorem c5_template_parameters :
    (∀ q : String, ∃ t ∈ tickers,
        (generate_sql q).1 = ma_sql t ∨ (generate_sql q).1 = avg_ticker_sql t ∨
        (generate_sql q).1 ∈ [returns_sql, risk_sql, volatility_sql, latest_sql, default_sql]) ∧
    (∀ t ∈ tickers, hasSub (ma_sql t) t = true ∧ hasSub (avg_ticker_sql t) t = true) ∧
    (∀ s ∈ [returns_sql, risk_sql, volatility_sql, latest_sql, default_sql],
        ∀ t ∈ tickers, hasSub s t = false) := by
  refine ⟨?_, by decide, by decide⟩
  intro q
  obtain ⟨t, ht, h⟩ := gen_cases q
  exact ⟨t, ht, by rcases h with h | h | h | h | h | h | h <;> simp [h]⟩

/-- Row of the `stock_prices` table, restricted to the columns the
moving-average query reads (`ticker`, `date`, `close`); dates are the ISO
text SQLite stores and compares lexicographically. -/
structure PriceRow where
  ticker : String
  date : String
  close : ℚ

/-- Comparison used by `ORDER BY date`. -/
def byDate (a b : PriceRow) : Prop := a.date ≤ b.date

instance : DecidableRel byDate :=
  fun a b => inferInstanceAs (Decidable (a.date ≤ b.date))

instance : IsTotal PriceRow byDate := ⟨fun a b => le_total a.date b.date⟩

instance : IsTrans PriceRow byDate := ⟨fun _ _ _ h h' => le_trans h h'⟩

/-- Rows the moving-average query ranges over: the `WHERE ticker = t`
filter followed by `ORDER BY date`. -/
def maRows (t : String) (db : List PriceRow) : List PriceRow :=
  List.insertionSort byDate (db.filter (fun r => r.ticker == t))

/-- Value of `AVG(close) OVER (ORDER BY date ROWS p PRECEDING)` at row
index `i` of the ordered rows: SQLite averages the current row together
with the up-to-`p` rows preceding it in the frame. -/
def windowAvg (p : Nat) (closes : List ℚ) (i : Nat) : ℚ :=
  let win := (closes.take (i + 1)).drop (i - p)
  win.sum / (win.length : ℚ)

/-- Result set of the SQL text `ma_sql t` under SQLite semantics: one
output row per table row of ticker `t`, ordered by date, carrying
`date`, `close`, `ma_7` and `ma_30`. -/
def ma_query_eval (t : String) (db : List PriceRow) : List (String × ℚ × ℚ × ℚ) :=
  let rows := maRows t db
  let closes := rows.map PriceRow.close
  rows.enum.map fun e =>
    (e.2.date, e.2.close, windowAvg 6 closes e.1, windowAvg 29 closes e.1)

lemma windowAvg_trailing (p i : Nat) (closes : List ℚ)
    (hp : p ≤ i) (hi : i < closes.length) :
    windowAvg p closes i = ((closes.drop (i - p)).take (p + 1)).sum / ((p : ℚ) + 1) := by
  have key : (closes.drop (i - p)).take (p + 1) = (closes.take (i + 1)).drop (i - p) := by
    have e : i - p + (p + 1) = i + 1 := by omega
    rw [List.take_drop, e]
  unfold windowAvg
  dsimp only
  rw [← key, List.length_take, List.length_drop]
  rw [Nat.min_eq_left (by omega : p + 1 ≤ closes.length - (i - p))]
  push_cast
  ring_nf

lemma ma_query_eval_getElem (t : String) (db : List PriceRow) (i : Nat) :
    (ma_query_eval t db)[i]? = ((maRows t db)[i]?).map
      (fun r => (r.date, r.close,
        windowAvg 6 ((maRows t db).map PriceRow.close) i,
        windowAvg 29 ((maRows t db).map PriceRow.close) i)) := by
  unfold ma_query_eval
  dsimp only
  rw [List.getElem?_map, List.getElem?_enum]
  cases (maRows t db)[i]? <;> simp

/-- Meaning of the moving-average template for ticker `t`, read off the SQL
text `ma_sql t` under SQLite window-function semantics: the rows are the
ticker's rows ordered by date; each output row pairs its date and close
with `ma_7` and `ma_30`; a full `ma_7` window averages the current row
together with the 6 preceding rows, a full `ma_30` window the current row
together with the 29 preceding rows. -/
def MaWindowSpec (t : String) : Prop :=
  ∀ db : List PriceRow,
    (maRows t db).Pairwise byDate ∧
    (∀ r ∈ maRows t db, r.ticker = t) ∧
    (∀ i : Nat, (ma_query_eval t db)[i]? = ((maRows t db)[i]?).map
      (fun r => (r.date, r.close,
        windowAvg 6 ((maRows t db).map PriceRow.close) i,
        windowAvg 29 ((maRows t db).map PriceRow.close) i))) ∧
    (∀ i : Nat, 6 ≤ i → i < (maRows t db).length →
      windowAvg 6 ((maRows t db).map PriceRow.close) i =
        ((((maRows t db).map PriceRow.close).drop (i - 6)).take 7).sum / 7) ∧
    (∀ i : Nat, 29 ≤ i → i < (maRows t db).length →
      windowAvg 29 ((maRows t db).map PriceRow.close) i =
        ((((maRows t db).map PriceRow.close).drop (i - 29)).take 30).sum / 30)

lemma maWindowSpec_holds (t : String) : MaWindowSpec t := by
  intro db
  refine ⟨?_, ?_, fun i => ma_query_eval_getElem t db i, ?_, ?_⟩
  · exact List.sorted_insertionSort byDate _
  · intro r hr
    rw [maRows, List.mem_insertionSort] at hr
    exact eq_of_beq (List.mem_filter.mp hr).2
  · intro i h6 hlen
    rw [windowAvg_trailing 6 i _ h6 (by simpa using hlen)]
    norm_num
  · intro i h29 hlen
    rw [windowAvg_trailing 29 i _ h29 (by simpa using hlen)]
    norm_num

/-- C7: a question routed to the moving-average branch yields the SQL
`ma_sql t` for the extracted ticker `t`, and that SQL computes trailing
7-row and 30-row averages of `close` over the ticker's rows ordered by
date (`MaWindowSpec`). -/
theorem c7_moving_average_window (q : String)
    (h : (hasSub (pyLower q) "moving average" || hasSub (pyLower q) "trend") = true) :
    (generate_sql q).1 = ma_sql (_extract_ticker (pyLower q)) ∧
    MaWindowSpec (_extract_ticker (pyLower q)) := by
  refine ⟨?_, maWindowSpec_holds _⟩
  unfold generate_sql
  dsimp only
  rw [if_pos h]

/-- Witness for C7 at the concrete question "trend". -/
theorem c7_moving_average_window_witness :
    (hasSub (pyLower "trend") "moving average" || hasSub (pyLower "trend") "trend") = true ∧
    ((generate_sql "trend").1 = ma_sql (_extract_ticker (pyLower "trend")) ∧
     MaWindowSpec (_extract_ticker (pyLower "trend"))) :=
  ⟨by decide, c7_moving_average_window "trend" (by decide)⟩

/-- Chart layouts `NL2SQLDemo.visualize` can draw (`nl2sql.py` lines
143-187); `blank` is the path that draws nothing on the figure. -/
inductive ChartLayout
  | movingAverage
  | dailyReturns
  | priceTrends
  | comparisonBar
  | blank
deriving DecidableEq

/-- Result DataFrame as `visualize` inspects it: the column names and the
rows (`len(result)` is `cells.length`; the branch structure never reads a
cell value). -/
structure DataFrame where
  cols : List String
  cells : List (List ℚ)

/-- Layout choice of `visualize` (`nl2sql.py` lines 147-182): the outer
branch tests `'date' in result.columns and len(result) > 5`, the inner
ones `'ma_7'` / `'return_pct'`; the `elif` tests `'ticker' in
result.columns and len(result) <= 5` and draws the comparison bars only
when a column other than `'ticker'` exists. -/
def chart_layout (result : DataFrame) : ChartLayout :=
  if "date" ∈ result.cols ∧ result.cells.length > 5 then
    if "ma_7" ∈ result.cols then ChartLayout.movingAverage
    else if "return_pct" ∈ result.cols then ChartLayout.dailyReturns
    else ChartLayout.priceTrends
  else if "ticker" ∈ result.cols ∧ result.cells.length ≤ 5 then
    if result.cols.filter (fun c => c != "ticker") ≠ [] then ChartLayout.comparisonBar
    else ChartLayout.blank
  else ChartLayout.blank

/-- C8 as stated is false: the layout choice is not determined solely by
the columns present — the frames `(["date", "close"], 6 rows)` and
`(["date", "close"], 0 rows)` share their columns yet get the price-trends
layout and no chart respectively. -/
theorem c8_counterexample :
    ¬ ∀ d1 d2 : DataFrame, d1.cols = d2.cols → chart_layout d1 = chart_layout d2 := by
  intro hall
  have h := hall ⟨["date", "close"], [[1], [1], [1], [1], [1], [1]]⟩ ⟨["date", "close"], []⟩ rfl
  revert h
  decide

/-- C8 amended: `visualize` picks among four canned chart layouts (moving
averages, daily returns, price trends, per-ticker comparison bars) or
draws no chart, and the choice is determined by which columns are present
together with the number of rows; each of the four layouts is attained. -/
theorem c8_layout_selection :
    (∀ d1 d2 : DataFrame, d1.cols = d2.cols → d1.cells.length = d2.cells.length →
        chart_layout d1 = chart_layout d2) ∧
    (chart_layout ⟨["date", "close", "ma_7", "ma_30"],
        [[1], [1], [1], [1], [1], [1]]⟩ = ChartLayout.movingAverage ∧
     chart_layout ⟨["ticker", "date", "close", "return_pct"],
        [[1], [1], [1], [1], [1], [1]]⟩ = ChartLayout.dailyReturns ∧
     chart_layout ⟨["date", "close"],
        [[1], [1], [1], [1], [1], [1]]⟩ = ChartLayout.priceTrends ∧
     chart_layout ⟨["ticker", "avg_volatility_pct"], [[1]]⟩ = ChartLayout.comparisonBar ∧
     chart_layout ⟨["date"], [[1]]⟩ = ChartLayout.blank) := by
  constructor
  · intro d1 d2 hc hn
    unfold chart_layout
    rw [hc, hn]
  · exact ⟨by decide, by decide, by decide, by decide, by decide⟩
